import Mathlib

set_option linter.unusedVariables false

/-!
Shallow embedding of the `general_similarity` repository (package `vectorviz`):
the dataset generators of `vectorviz/data/_data_generator.py`, the package
initializer `vectorviz/data/__init__.py`, and the renderer of
`vectorviz/visualize/_plot.py`, together with theorems settling the frozen
claims about them.

Modelling conventions:
* Python floats are modelled as real numbers `ℝ`; `np.pi` is `Real.pi`.
* The ambient NumPy random source is modelled by explicit streams
  `ℕ → ℝ` of draws: a stream `u` of uniform draws for `rand`, and a stream
  `g`/`z` of standard normal draws for `normal`/`randn`.
  `RandomState.normal(scale=s)` yields `s` times a standard normal draw and
  raises `ValueError` when `s < 0`; for a `size=(a, b)` request the entry at
  row `i`, column `j` is draw number `b * i + j` (C row-major order).
* Fallible Python code returns `Except PyErr`; `assert` failures are
  `PyErr.assertionError`, unbound names are `PyErr.nameError`, failed
  from-imports are `PyErr.importError`.
* A float that is NaN (here: only the `0/0` produced by the unguarded
  min-max normalization of `make_swiss_roll`) is modelled as `none` in
  `Option ℝ`, a present value `v` as `some v`.
-/

/-- Kinds of Python exceptions the embedded code can raise.  `parseError`
stands for the `SyntaxError` raised when a module's source fails to parse. -/
inductive PyErr where
  | assertionError : PyErr
  | nameError : String → PyErr
  | importError : String → PyErr
  | valueError : PyErr
  | indexError : PyErr
  | parseError : PyErr
deriving DecidableEq

/-- Did the embedded call return normally? -/
def resOk {α : Type} : Except PyErr α → Bool
  | Except.ok _ => true
  | Except.error _ => false

/-- First component (the point array) of a successful generator call. -/
def resPoints {α β : Type} : Except PyErr (α × β) → Option α
  | Except.ok p => some p.1
  | Except.error _ => none

/-- Second component (the label / color array) of a successful generator call. -/
def resLabels {α β : Type} : Except PyErr (α × β) → Option β
  | Except.ok p => some p.2
  | Except.error _ => none

/-- `np.linspace(a, b, num)` with the default `endpoint=True`: `num` evenly
spaced values from `a` to `b`; `[a]` for `num = 1` and `[]` for `num = 0`. -/
noncomputable def linspace (a b : ℝ) (num : ℕ) : List ℝ :=
  if num ≤ 1 then List.replicate num a
  else (List.range num).map (fun i : ℕ => a + (i : ℝ) * ((b - a) / ((num : ℝ) - 1)))

/-- The noise-free output of `make_moons` (file `_data_generator.py`,
lines 37-50): point rows are
`(cos θ - x_gap, xy_ratio * sin θ + y_gap)` over `linspace 0 π (n / 2)`
for the outer arc followed by
`(1 - cos θ + x_gap, xy_ratio * (1 - sin θ - (0.5 + y_gap)))` over
`linspace 0 π (n - n / 2)` for the inner arc; labels are that many `0`s
then that many `1`s (NumPy `intp` values). -/
noncomputable def moonsNoiseless (n : ℕ) (xy_ratio x_gap y_gap : ℝ) :
    List (ℝ × ℝ) × List ℕ :=
  (((linspace 0 Real.pi (n / 2)).map (fun v => Real.cos v - x_gap) ++
      (linspace 0 Real.pi (n - n / 2)).map (fun v => 1 - Real.cos v + x_gap)).zip
     ((linspace 0 Real.pi (n / 2)).map (fun v => xy_ratio * Real.sin v + y_gap) ++
      (linspace 0 Real.pi (n - n / 2)).map
        (fun v => xy_ratio * (1 - Real.sin v - (0.5 + y_gap)))),
   List.replicate (n / 2) 0 ++ List.replicate (n - n / 2) 1)

/-- `make_moons(n_samples, xy_ratio, x_gap, y_gap, noise)` from
`_data_generator.py` lines 5-60.  The three leading asserts
(`xy_ratio > 0`, `-0.3 <= x_gap`, `-0.3 <= y_gap`) raise `AssertionError`.
With `noise=s`, `generator.normal(scale=s, size=X.shape)` raises
`ValueError` for `s < 0` and otherwise yields the matrix with row `i` equal
to `(s * g (2 i), s * g (2 i + 1))`; the source then multiplies its second
column by `xy_ratio` and adds it to `X`.  `g` is the stream of standard
normal draws; the sample count is the nonnegative `n_samples`. -/
noncomputable def makeMoons (n_samples : ℕ) (xy_ratio x_gap y_gap : ℝ)
    (noise : Option ℝ) (g : ℕ → ℝ) : Except PyErr (List (ℝ × ℝ) × List ℕ) :=
  if 0 < xy_ratio ∧ -0.3 ≤ x_gap ∧ -0.3 ≤ y_gap then
    match noise with
    | none => Except.ok (moonsNoiseless n_samples xy_ratio x_gap y_gap)
    | some s =>
        if s < 0 then Except.error PyErr.valueError
        else
          Except.ok
            (((moonsNoiseless n_samples xy_ratio x_gap y_gap).1).zipWith
               (fun p q => (p.1 + q.1, p.2 + q.2))
               ((List.range (moonsNoiseless n_samples xy_ratio x_gap y_gap).1.length).map
                 (fun i => (s * g (2 * i), s * g (2 * i + 1) * xy_ratio))),
             (moonsNoiseless n_samples xy_ratio x_gap y_gap).2)
  else Except.error PyErr.assertionError

/-- The undefined name evaluated by the body of `make_spiral`: the source
(lines 96-121 of `_data_generator.py`) reads `gap_betweein_start_point`
while the parameter of line 62 is spelled `gap_between_start_point`. -/
def misspelledSpiralName : String := "gap_betweein_start_point"

/-- `make_spiral(n_samples_per_class, n_classes, n_rotations,
gap_between_spiral, gap_between_start_point, equal_interval, noise)` from
`_data_generator.py` lines 62-121.  Line 89 asserts
`1 <= n_classes and type(n_classes) == int` (here `n_classes : ℤ`, so the
type test holds).  When the assert passes, `theta` is computed and the loop
`for c in range(n_classes)` runs at least once; its first iteration sets
`t_shift` and then evaluates the unbound name `gap_betweein_start_point`
(line 100), so the call raises `NameError` before any random draw is
consumed and before any point is produced.  The stream `g` of draws and the
remaining parameters are therefore never used. -/
def makeSpiral (n_samples_per_class : ℕ) (n_classes : ℤ)
    (n_rotations gap_between_spiral gap_between_start_point : ℝ)
    (equal_interval : Bool) (noise : Option ℝ) (g : ℕ → ℝ) :
    Except PyErr (List (ℝ × ℝ) × List ℕ) :=
  if 1 ≤ n_classes then Except.error (PyErr.nameError misspelledSpiralName)
  else Except.error PyErr.assertionError

/-- The spiral parameter of `make_swiss_roll` (line 152 of
`_data_generator.py`): `t = n_rotations * np.pi * (1 + 2 * rand)`, entry by
entry on the stream `u` of uniform draws. -/
noncomputable def tFun (n_rotations : ℝ) (u : ℕ → ℝ) (i : ℕ) : ℝ :=
  n_rotations * Real.pi * (1 + 2 * u i)

/-- The row of `n_samples` spiral parameters drawn by `make_swiss_roll`. -/
noncomputable def tList (n_samples : ℕ) (n_rotations : ℝ) (u : ℕ → ℝ) : List ℝ :=
  (List.range n_samples).map (tFun n_rotations u)

/-- `ndarray.min()` of a nonempty list (the `[]` case is never reached by
the embedded code: `make_swiss_roll` raises `ValueError` first, exactly as
NumPy does on an empty reduction). -/
noncomputable def listMin : List ℝ → ℝ
  | [] => 0
  | a :: l => l.foldl min a

/-- `ndarray.max()` of a nonempty list, with the same convention. -/
noncomputable def listMax : List ℝ → ℝ
  | [] => 0
  | a :: l => l.foldl max a

/-- Float division as performed by line 163 of `_data_generator.py`.  The
numerator `t_i - t.min()` vanishes whenever the denominator
`t.max() - t.min()` does, so a zero denominator is exactly NumPy's `0/0`,
which is NaN: modelled as `none`. -/
noncomputable def pyDiv (a b : ℝ) : Option ℝ :=
  if b = 0 then none else some (a / b)

/-- The 3D points of `make_swiss_roll` (lines 152-158): for each `i`,
`x = (1 + gap) * t * cos t` (jittered by `thickness * randn`),
`y = width * (rand - 0.5)` (second block of uniform draws, entries
`u (n + i)`), `z = (1 + gap) * t * sin t`.  The `randn(3, n_samples)`
draws are `z_draws (j * n_samples + i)` for row `j`, C row-major order. -/
noncomputable def swissPts (n_samples : ℕ) (n_rotations gap thickness width : ℝ)
    (u z_draws : ℕ → ℝ) : List (ℝ × ℝ × ℝ) :=
  (List.range n_samples).map (fun i =>
    ((1 + gap) * tFun n_rotations u i * Real.cos (tFun n_rotations u i) +
       thickness * z_draws i,
     width * (u (n_samples + i) - 0.5) + thickness * z_draws (n_samples + i),
     (1 + gap) * tFun n_rotations u i * Real.sin (tFun n_rotations u i) +
       thickness * z_draws (2 * n_samples + i)))

/-- `make_swiss_roll(n_samples, n_rotations, gap, thickness, width)` from
`_data_generator.py` lines 123-165.  With `n_samples = 0` the reduction
`t.min()` on an empty array raises `ValueError`.  Otherwise the call
returns the transposed point matrix and the color row
`(t - t.min()) / (t.max() - t.min())`, whose division is unguarded. -/
noncomputable def makeSwissRoll (n_samples : ℕ) (n_rotations gap thickness width : ℝ)
    (u z_draws : ℕ → ℝ) : Except PyErr (List (ℝ × ℝ × ℝ) × List (Option ℝ)) :=
  if n_samples = 0 then Except.error PyErr.valueError
  else
    Except.ok
      (swissPts n_samples n_rotations gap thickness width u z_draws,
       (tList n_samples n_rotations u).map (fun ti =>
         pyDiv (ti - listMin (tList n_samples n_rotations u))
           (listMax (tList n_samples n_rotations u) - listMin (tList n_samples n_rotations u))))

/-- The module-level names bound in `vectorviz/data/_data_generator.py`:
its two imported names and its three function definitions. -/
def generatorModuleAttrs : List String :=
  ["np", "check_random_state", "make_moons", "make_spiral", "make_swiss_roll"]

/-- The names that `vectorviz/data/__init__.py` from-imports out of
`._data_generator`, in source order (lines 1-5). -/
def dataInitImportList : List String :=
  ["make_moons", "make_spiral", "make_swiss_roll", "make_radial", "make_two_layer_radial"]

/-- Executing a sequence of `from ._data_generator import name` statements:
the first name that is not an attribute of the generator module raises
`ImportError` naming it. -/
def runFromImports : List String → Except PyErr Unit
  | [] => Except.ok ()
  | nm :: rest =>
      if generatorModuleAttrs.contains nm then runFromImports rest
      else Except.error (PyErr.importError nm)

/-- Tokens of the Python expression grammar fragment needed for the
`go.Layout(...)` call of `vectorviz/visualize/_plot.py` (comments are
dropped by the tokenizer). -/
inductive PTok where
  | pname : String → PTok
  | pnum : Nat → PTok
  | lpar : PTok
  | rpar : PTok
  | lbrk : PTok
  | rbrk : PTok
  | comma : PTok
  | eqTok : PTok
  | dot : PTok
  | kwFalse : PTok
deriving DecidableEq

/-- States of the recursive-descent recognizer for the Python fragment
`expr := atom trailer*`, `atom := name | number | False | [ elems ]`,
`trailer := . name | ( args )`, where call arguments are comma-separated
`name = expr` or `expr` items (a trailing comma is allowed). -/
inductive PMode where
  | mexpr : PMode
  | mtrail : PMode
  | margs : PMode
  | margsNext : PMode
  | melems : PMode
  | melemsNext : PMode
deriving DecidableEq

/-- Fuel-indexed recognizer: consumes one production of the given kind and
returns the remaining tokens, or `none` if the tokens do not conform to the
grammar (for example, two call arguments not separated by a comma). -/
def pRun : Nat → PMode → List PTok → Option (List PTok)
  | 0, _, _ => none
  | Nat.succ f, PMode.mexpr, ts =>
      match ts with
      | PTok.pname _ :: rest => pRun f PMode.mtrail rest
      | PTok.pnum _ :: rest => pRun f PMode.mtrail rest
      | PTok.kwFalse :: rest => pRun f PMode.mtrail rest
      | PTok.lbrk :: rest => Option.bind (pRun f PMode.melems rest) (pRun f PMode.mtrail)
      | _ => none
  | Nat.succ f, PMode.mtrail, ts =>
      match ts with
      | PTok.dot :: PTok.pname _ :: rest => pRun f PMode.mtrail rest
      | PTok.lpar :: rest => Option.bind (pRun f PMode.margs rest) (pRun f PMode.mtrail)
      | _ => some ts
  | Nat.succ f, PMode.margs, ts =>
      match ts with
      | PTok.rpar :: rest => some rest
      | PTok.pname _ :: PTok.eqTok :: rest =>
          Option.bind (pRun f PMode.mexpr rest) (pRun f PMode.margsNext)
      | _ => Option.bind (pRun f PMode.mexpr ts) (pRun f PMode.margsNext)
  | Nat.succ f, PMode.margsNext, ts =>
      match ts with
      | PTok.comma :: rest => pRun f PMode.margs rest
      | PTok.rpar :: rest => some rest
      | _ => none
  | Nat.succ f, PMode.melems, ts =>
      match ts with
      | PTok.rbrk :: rest => some rest
      | _ => Option.bind (pRun f PMode.mexpr ts) (pRun f PMode.melemsNext)
  | Nat.succ f, PMode.melemsNext, ts =>
      match ts with
      | PTok.comma :: rest => pRun f PMode.melems rest
      | PTok.rbrk :: rest => some rest
      | _ => none

/-- Does the token sequence form one complete well-formed expression? -/
def pythonExprOk (ts : List PTok) : Bool :=
  match pRun 500 PMode.mexpr ts with
  | some [] => true
  | _ => false

/-- The token sequence of the right-hand side `go.Layout(...)` of
`_plot.py` lines 28-45, transcribed verbatim: after the argument
`xaxis = dict(domain = [0, 1])` the next argument `yaxis = ...` follows
with no separating comma. -/
def layoutCallToks : List PTok :=
  [PTok.pname ("go"), PTok.dot, PTok.pname ("Layout"), PTok.lpar,
   PTok.pname ("autosize"), PTok.eqTok, PTok.kwFalse, PTok.comma,
   PTok.pname ("width"), PTok.eqTok, PTok.pname ("width"), PTok.comma,
   PTok.pname ("height"), PTok.eqTok, PTok.pname ("height"), PTok.comma,
   PTok.pname ("margin"), PTok.eqTok,
     PTok.pname ("go"), PTok.dot, PTok.pname ("Margin"), PTok.lpar,
     PTok.pname ("l"), PTok.eqTok, PTok.pnum 50, PTok.comma,
     PTok.pname ("r"), PTok.eqTok, PTok.pnum 50, PTok.comma,
     PTok.pname ("b"), PTok.eqTok, PTok.pnum 100, PTok.comma,
     PTok.pname ("t"), PTok.eqTok, PTok.pnum 100, PTok.comma,
     PTok.pname ("pad"), PTok.eqTok, PTok.pnum 4, PTok.rpar, PTok.comma,
   PTok.pname ("xaxis"), PTok.eqTok, PTok.pname ("dict"), PTok.lpar,
     PTok.pname ("domain"), PTok.eqTok,
     PTok.lbrk, PTok.pnum 0, PTok.comma, PTok.pnum 1, PTok.rbrk, PTok.rpar,
   PTok.pname ("yaxis"), PTok.eqTok, PTok.pname ("dict"), PTok.lpar,
     PTok.pname ("domain"), PTok.eqTok,
     PTok.lbrk, PTok.pnum 0, PTok.comma, PTok.pnum 1, PTok.rbrk, PTok.rpar,
   PTok.rpar]

/-- The same token sequence with the one missing comma inserted between the
`xaxis` and `yaxis` arguments. -/
def layoutCallToksFixed : List PTok :=
  [PTok.pname ("go"), PTok.dot, PTok.pname ("Layout"), PTok.lpar,
   PTok.pname ("autosize"), PTok.eqTok, PTok.kwFalse, PTok.comma,
   PTok.pname ("width"), PTok.eqTok, PTok.pname ("width"), PTok.comma,
   PTok.pname ("height"), PTok.eqTok, PTok.pname ("height"), PTok.comma,
   PTok.pname ("margin"), PTok.eqTok,
     PTok.pname ("go"), PTok.dot, PTok.pname ("Margin"), PTok.lpar,
     PTok.pname ("l"), PTok.eqTok, PTok.pnum 50, PTok.comma,
     PTok.pname ("r"), PTok.eqTok, PTok.pnum 50, PTok.comma,
     PTok.pname ("b"), PTok.eqTok, PTok.pnum 100, PTok.comma,
     PTok.pname ("t"), PTok.eqTok, PTok.pnum 100, PTok.comma,
     PTok.pname ("pad"), PTok.eqTok, PTok.pnum 4, PTok.rpar, PTok.comma,
   PTok.pname ("xaxis"), PTok.eqTok, PTok.pname ("dict"), PTok.lpar,
     PTok.pname ("domain"), PTok.eqTok,
     PTok.lbrk, PTok.pnum 0, PTok.comma, PTok.pnum 1, PTok.rbrk, PTok.rpar,
   PTok.comma,
   PTok.pname ("yaxis"), PTok.eqTok, PTok.pname ("dict"), PTok.lpar,
     PTok.pname ("domain"), PTok.eqTok,
     PTok.lbrk, PTok.pnum 0, PTok.comma, PTok.pnum 1, PTok.rbrk, PTok.rpar,
   PTok.rpar]

/-- Does the module `vectorviz/visualize/_plot.py` parse?  Every statement
of the module is syntactically well-formed except the `go.Layout(...)`
call, so the module parses exactly when that call does. -/
def plotModuleOk : Bool := pythonExprOk layoutCallToks

/-- `ipython_3d_scatter(X, color, text, width, height, marker_size,
colorscale)` from `_plot.py` lines 6-48.  Because the defining module fails
to parse, Python raises `SyntaxError` when the module is loaded, so every
call fails before the body runs; this is the `plotModuleOk = false` branch.
In the counterfactual branch where the module parses, the body performs no
explicit validation: the column reads `X[:,0]`, `X[:,1]`, `X[:,2]` raise
`IndexError` when the point array has fewer than 3 columns, and otherwise
the scene is handed to the external plotly backend (out of scope, modelled
as a normal return); mismatched `color`/`text` lengths are passed through
unchecked. -/
def ipython_3d_scatter (X : List (List ℝ)) (color : List ℝ)
    (text : Option (List String)) (width height marker_size : ℕ)
    (colorscale : String) : Except PyErr Unit :=
  if plotModuleOk then
    if (X.headD []).length < 3 then Except.error PyErr.indexError
    else Except.ok ()
  else Except.error PyErr.parseError

lemma foldl_min_le_init (l : List ℝ) : ∀ a : ℝ, l.foldl min a ≤ a := by
  induction l with
  | nil => intro a; simp
  | cons b t ih => intro a; exact le_trans (ih (min a b)) (min_le_left a b)

lemma foldl_min_le_mem (l : List ℝ) : ∀ a x : ℝ, x ∈ l → l.foldl min a ≤ x := by
  induction l with
  | nil => intro a x hx; cases hx
  | cons b t ih =>
      intro a x hx
      rcases List.mem_cons.mp hx with h | h
      · subst h; exact le_trans (foldl_min_le_init t (min a x)) (min_le_right a x)
      · exact ih (min a b) x h

lemma foldl_min_choice (l : List ℝ) : ∀ a : ℝ, l.foldl min a = a ∨ l.foldl min a ∈ l := by
  induction l with
  | nil => intro a; exact Or.inl rfl
  | cons b t ih =>
      intro a
      rcases ih (min a b) with h | h
      · rcases min_choice a b with h2 | h2
        · exact Or.inl (h.trans h2)
        · exact Or.inr (by simp only [List.foldl_cons]; rw [h, h2]; exact List.mem_cons_self b t)
      · exact Or.inr (List.mem_cons_of_mem b h)

lemma foldl_max_init_le (l : List ℝ) : ∀ a : ℝ, a ≤ l.foldl max a := by
  induction l with
  | nil => intro a; simp
  | cons b t ih => intro a; exact le_trans (le_max_left a b) (ih (max a b))

lemma foldl_max_mem_le (l : List ℝ) : ∀ a x : ℝ, x ∈ l → x ≤ l.foldl max a := by
  induction l with
  | nil => intro a x hx; cases hx
  | cons b t ih =>
      intro a x hx
      rcases List.mem_cons.mp hx with h | h
      · subst h; exact le_trans (le_max_right a x) (foldl_max_init_le t (max a x))
      · exact ih (max a b) x h

lemma foldl_max_choice (l : List ℝ) : ∀ a : ℝ, l.foldl max a = a ∨ l.foldl max a ∈ l := by
  induction l with
  | nil => intro a; exact Or.inl rfl
  | cons b t ih =>
      intro a
      rcases ih (max a b) with h | h
      · rcases max_choice a b with h2 | h2
        · exact Or.inl (h.trans h2)
        · exact Or.inr (by simp only [List.foldl_cons]; rw [h, h2]; exact List.mem_cons_self b t)
      · exact Or.inr (List.mem_cons_of_mem b h)

lemma listMin_le_mem {l : List ℝ} {x : ℝ} (h : x ∈ l) : listMin l ≤ x := by
  cases l with
  | nil => cases h
  | cons a t =>
      show t.foldl min a ≤ x
      rcases List.mem_cons.mp h with h1 | h1
      · subst h1; exact foldl_min_le_init t x
      · exact foldl_min_le_mem t a x h1

lemma listMin_mem {l : List ℝ} (h : l ≠ []) : listMin l ∈ l := by
  cases l with
  | nil => exact absurd rfl h
  | cons a t =>
      show t.foldl min a ∈ a :: t
      rcases foldl_min_choice t a with h1 | h1
      · rw [h1]; exact List.mem_cons_self a t
      · exact List.mem_cons_of_mem a h1

lemma listMax_mem_le {l : List ℝ} {x : ℝ} (h : x ∈ l) : x ≤ listMax l := by
  cases l with
  | nil => cases h
  | cons a t =>
      show x ≤ t.foldl max a
      rcases List.mem_cons.mp h with h1 | h1
      · subst h1; exact foldl_max_init_le t x
      · exact foldl_max_mem_le t a x h1

lemma listMax_mem {l : List ℝ} (h : l ≠ []) : listMax l ∈ l := by
  cases l with
  | nil => exact absurd rfl h
  | cons a t =>
      show t.foldl max a ∈ a :: t
      rcases foldl_max_choice t a with h1 | h1
      · rw [h1]; exact List.mem_cons_self a t
      · exact List.mem_cons_of_mem a h1

lemma linspace_length (a b : ℝ) (num : ℕ) : (linspace a b num).length = num := by
  unfold linspace
  split
  · exact List.length_replicate num a
  · rw [List.length_map, List.length_range]

lemma moonsNoiseless_points_length (n : ℕ) (r xg yg : ℝ) :
    (moonsNoiseless n r xg yg).1.length = n := by
  simp only [moonsNoiseless, List.length_zip, List.length_append, List.length_map,
    linspace_length, min_self]
  omega

lemma moonsNoiseless_labels (n : ℕ) (r xg yg : ℝ) :
    (moonsNoiseless n r xg yg).2 = List.replicate (n / 2) 0 ++ List.replicate (n - n / 2) 1 :=
  rfl

lemma zipWith_add_all_zero : ∀ (X L : List (ℝ × ℝ)), X.length ≤ L.length →
    (∀ p ∈ L, p = ((0 : ℝ), (0 : ℝ))) →
    X.zipWith (fun p q => (p.1 + q.1, p.2 + q.2)) L = X := by
  intro X
  induction X with
  | nil => intro L _ _; simp
  | cons x xs ih =>
      intro L hlen hz
      cases L with
      | nil => simp at hlen
      | cons p ps =>
          have hp := hz p (List.mem_cons_self p ps)
          have hrest := ih ps (by simpa using hlen)
            (fun q hq => hz q (List.mem_cons_of_mem p hq))
          simp [hp, hrest]

lemma makeSwissRoll_eq (n : ℕ) (hn : n ≠ 0) (r gap th w : ℝ) (u z_draws : ℕ → ℝ) :
    makeSwissRoll n r gap th w u z_draws =
      Except.ok (swissPts n r gap th w u z_draws,
        (tList n r u).map (fun ti =>
          pyDiv (ti - listMin (tList n r u)) (listMax (tList n r u) - listMin (tList n r u)))) := by
  unfold makeSwissRoll
  rw [if_neg hn]

/-- C1: the spec says `make_spiral(n_samples_per_class=50, n_classes=3)`
returns 150 2D points labelled `[0]*50+[1]*50+[2]*50`; on the code as
written the call instead raises `NameError` on the unbound name
`gap_betweein_start_point` (line 100 misspells the parameter
`gap_between_start_point` of line 62) before producing any point, so the
documented return never happens. -/
theorem make_spiral_default_call_raises_name_error :
    makeSpiral 50 3 3 0 0 true none (fun _ => 0) =
      Except.error (PyErr.nameError misspelledSpiralName) := rfl

/-- C2: executing the from-import list of `vectorviz/data/__init__.py`
against the names actually bound in `_data_generator.py` fails at
`make_radial` (the fourth import), so loading the package raises an
`ImportError` before any generator can be called. -/
theorem data_package_import_fails :
    runFromImports dataInitImportList = Except.error (PyErr.importError ("make_radial")) := rfl

/-- C5: whenever the arm count `n_classes` is not positive the assert on
line 89 of `_data_generator.py` fails, so `make_spiral` raises
`AssertionError` immediately, before any point is produced; this covers
`n_classes = 0` and `n_classes = -1`. -/
theorem make_spiral_nonpositive_classes_asserts (nsp : ℕ) (nc : ℤ)
    (nr gs gp : ℝ) (ei : Bool) (noise : Option ℝ) (g : ℕ → ℝ) (h : nc ≤ 0) :
    makeSpiral nsp nc nr gs gp ei noise g = Except.error PyErr.assertionError := by
  unfold makeSpiral
  rw [if_neg (by omega)]

theorem make_spiral_nonpositive_classes_asserts_witness :
    makeSpiral 100 0 3 0 0 true none (fun _ => 0) = Except.error PyErr.assertionError ∧
    makeSpiral 100 (-1) 3 0 0 true none (fun _ => 0) = Except.error PyErr.assertionError :=
  ⟨make_spiral_nonpositive_classes_asserts 100 0 3 0 0 true none (fun _ => 0) (by norm_num),
   make_spiral_nonpositive_classes_asserts 100 (-1) 3 0 0 true none (fun _ => 0) (by norm_num)⟩

/-- C9: the `go.Layout(...)` call of `_plot.py` lines 28-45 is not
syntactically well-formed Python: the recognizer rejects its token
sequence, while accepting the same sequence with a single comma inserted
between the adjacent `xaxis` and `yaxis` keyword arguments; consequently
the module does not parse and `ipython_3d_scatter` cannot execute as
given. -/
theorem plot_layout_call_malformed :
    pythonExprOk layoutCallToks = false ∧
    pythonExprOk layoutCallToksFixed = true ∧
    plotModuleOk = false := ⟨rfl, rfl, rfl⟩

/-- C8: a call of `ipython_3d_scatter` whose point array is not 3-column,
or whose point, color and text arrays have mismatched lengths — in
particular `len(text) different from len(X)` — raises an error.  (On this code
every call raises: the defining module fails to parse, so the call fails
with `SyntaxError` at module load, before any length check could run.) -/
theorem scatter_mismatched_call_errors (X : List (List ℝ)) (color : List ℝ)
    (text : List String) (width height marker_size : ℕ) (colorscale : String)
    (hbad : text.length ≠ X.length ∨ color.length ≠ X.length ∨
      ¬ (∀ row ∈ X, row.length = 3)) :
    ipython_3d_scatter X color (some text) width height marker_size colorscale =
      Except.error PyErr.parseError := rfl

theorem scatter_mismatched_call_errors_witness :
    (["a", "b"] : List String).length ≠ ([[1, 2, 3]] : List (List ℝ)).length ∧
    ipython_3d_scatter [[1, 2, 3]] [0] (some (["a", "b"])) 600 600 3 ("Jet") =
      Except.error PyErr.parseError :=
  ⟨by simp,
   scatter_mismatched_call_errors [[1, 2, 3]] [0] (["a", "b"]) 600 600 3 ("Jet")
     (Or.inl (by simp))⟩

/-- C10: with `n_samples = 1` the denominator `t.max() - t.min()` of the
color normalization of `make_swiss_roll` (line 163) is exactly `0`, the
division is unguarded, and the single returned color is NaN (`none`)
rather than a value in `[0, 1]`, whatever the random draws were. -/
theorem make_swiss_roll_single_sample_nan (r gap th w : ℝ) (u z_draws : ℕ → ℝ) :
    listMax (tList 1 r u) - listMin (tList 1 r u) = 0 ∧
    resLabels (makeSwissRoll 1 r gap th w u z_draws) = some [none] := by
  have ht : tList 1 r u = [tFun r u 0] := by
    simp [tList, List.range_succ, List.range_zero]
  have hd : listMax (tList 1 r u) - listMin (tList 1 r u) = 0 := by
    rw [ht]; simp [listMin, listMax]
  refine ⟨hd, ?_⟩
  rw [makeSwissRoll_eq 1 (by norm_num) r gap th w u z_draws]
  simp only [resLabels, ht, listMin, listMax, List.map_cons, List.map_nil, List.foldl_nil,
    sub_self, pyDiv, if_pos]

lemma makeMoons_none_eq (n : ℕ) (r xg yg : ℝ) (g : ℕ → ℝ) :
    makeMoons n r xg yg none g =
      if 0 < r ∧ -0.3 ≤ xg ∧ -0.3 ≤ yg then Except.ok (moonsNoiseless n r xg yg)
      else Except.error PyErr.assertionError := rfl

lemma makeMoons_some_eq (n : ℕ) (r xg yg s : ℝ) (g : ℕ → ℝ) :
    makeMoons n r xg yg (some s) g =
      if 0 < r ∧ -0.3 ≤ xg ∧ -0.3 ≤ yg then
        (if s < 0 then Except.error PyErr.valueError
         else
           Except.ok
             (((moonsNoiseless n r xg yg).1).zipWith
                (fun p q => (p.1 + q.1, p.2 + q.2))
                ((List.range (moonsNoiseless n r xg yg).1.length).map
                  (fun i => (s * g (2 * i), s * g (2 * i + 1) * r))),
              (moonsNoiseless n r xg yg).2))
      else Except.error PyErr.assertionError := rfl

lemma moons_valid_not_or {r xg yg : ℝ} (hc : 0 < r ∧ -0.3 ≤ xg ∧ -0.3 ≤ yg) :
    ¬(r ≤ 0 ∨ xg < -0.3 ∨ yg < -0.3) := by
  push_neg
  exact ⟨hc.1, hc.2.1, hc.2.2⟩

lemma moons_invalid_or {r xg yg : ℝ} (hc : ¬(0 < r ∧ -0.3 ≤ xg ∧ -0.3 ≤ yg)) :
    r ≤ 0 ∨ xg < -0.3 ∨ yg < -0.3 := by
  by_contra hno
  push_neg at hno
  exact hc ⟨hno.1, hno.2.1, hno.2.2⟩

/-- C3: with default shape parameters, `make_moons(n_samples=N)` for
`N ≥ 2` returns a point array of `N` two-coordinate rows together with the
label array consisting of exactly `N / 2` zeros (outer arc) followed by
`N - N / 2` ones (inner arc); in particular every label is `0` or `1`. -/
theorem make_moons_shape_and_labels (N : ℕ) (g : ℕ → ℝ) (h : 2 ≤ N) :
    resLabels (makeMoons N 1 0 0 none g) =
      some (List.replicate (N / 2) 0 ++ List.replicate (N - N / 2) 1) ∧
    (resPoints (makeMoons N 1 0 0 none g)).map List.length = some N := by
  rw [makeMoons_none_eq, if_pos (by norm_num)]
  exact ⟨rfl, by simp [resPoints, moonsNoiseless_points_length]⟩

theorem make_moons_shape_and_labels_witness :
    2 ≤ 4 ∧
    resLabels (makeMoons 4 1 0 0 none (fun _ => 0)) =
      some (List.replicate 2 0 ++ List.replicate 2 1) ∧
    (resPoints (makeMoons 4 1 0 0 none (fun _ => 0))).map List.length = some 4 := by
  have h := make_moons_shape_and_labels 4 (fun _ => 0) (by norm_num)
  exact ⟨by norm_num, h.1, h.2⟩

/-- C4: `make_moons` raises its precondition `AssertionError` exactly when
`xy_ratio ≤ 0` or a gap is `< -0.3`; with the default `noise=None`, every
valid parameter choice (`xy_ratio > 0`, both gaps `≥ -0.3`) returns
normally with no exception. -/
theorem make_moons_precondition_iff (n : ℕ) (r xg yg : ℝ) (noise : Option ℝ) (g : ℕ → ℝ) :
    (makeMoons n r xg yg noise g = Except.error PyErr.assertionError ↔
      (r ≤ 0 ∨ xg < -0.3 ∨ yg < -0.3)) ∧
    (resOk (makeMoons n r xg yg none g) = true ↔ (0 < r ∧ -0.3 ≤ xg ∧ -0.3 ≤ yg)) := by
  constructor
  · cases noise with
    | none =>
        rw [makeMoons_none_eq]
        split_ifs with hc
        · exact iff_of_false (by simp) (moons_valid_not_or hc)
        · exact iff_of_true rfl (moons_invalid_or hc)
    | some s =>
        rw [makeMoons_some_eq]
        split_ifs with hc hs
        · exact iff_of_false (by simp) (moons_valid_not_or hc)
        · exact iff_of_false (by simp) (moons_valid_not_or hc)
        · exact iff_of_true rfl (moons_invalid_or hc)
  · rw [makeMoons_none_eq]
    split_ifs with hc
    · exact iff_of_true rfl hc
    · exact iff_of_false (by simp [resOk]) hc

/-- C7: calling with `noise=0.0` is extensionally equal to calling with
`noise=None`.  For `make_moons` the zero-variance Gaussian perturbation is
the zero matrix, so all coordinates and labels are unchanged; for
`make_spiral` both calls behave identically as well (each raises the same
error before the noise branch is ever reached, see C1/C5). -/
theorem zero_noise_equiv_no_noise (n : ℕ) (r xg yg : ℝ) (g : ℕ → ℝ)
    (nsp : ℕ) (nc : ℤ) (nr gs gp : ℝ) (ei : Bool) (g2 : ℕ → ℝ) :
    makeMoons n r xg yg (some 0) g = makeMoons n r xg yg none g ∧
    makeSpiral nsp nc nr gs gp ei (some 0) g2 = makeSpiral nsp nc nr gs gp ei none g2 := by
  refine ⟨?_, rfl⟩
  rw [makeMoons_some_eq, makeMoons_none_eq]
  split_ifs with hc hs
  · exact absurd hs (lt_irrefl 0)
  · congr 1
    have hzip := zipWith_add_all_zero (moonsNoiseless n r xg yg).1
      ((List.range (moonsNoiseless n r xg yg).1.length).map
        (fun i => ((0 : ℝ) * g (2 * i), (0 : ℝ) * g (2 * i + 1) * r)))
      (by simp)
      (by
        intro p hp
        rcases List.mem_map.mp hp with ⟨i, _, hi⟩
        rw [← hi]
        simp)
    rw [hzip]
  · rfl

/-- C6: for `n_samples ≥ 2`, `make_swiss_roll` returns `n_samples` 3D
points and one color per point, the min-max normalization of the spiral
parameter `t` — provided the sampled `t` values are not all equal (an
almost-sure event for the continuous sampler): then every color is a real
value in `[0, 1]`, and the colors `0` and `1` are both attained (so
`min(color) = 0` and `max(color) = 1`).  Without that proviso the
normalization divides by zero, see the degenerate-draw counterexample. -/
theorem make_swiss_roll_color_normalized (n : ℕ) (r gap th w : ℝ) (u z_draws : ℕ → ℝ)
    (h2 : 2 ≤ n)
    (hne : ∃ i j, i < n ∧ j < n ∧ tFun r u i ≠ tFun r u j) :
    resOk (makeSwissRoll n r gap th w u z_draws) = true ∧
    (resPoints (makeSwissRoll n r gap th w u z_draws)).map List.length = some n ∧
    (resLabels (makeSwissRoll n r gap th w u z_draws)).map List.length = some n ∧
    ∀ cs, resLabels (makeSwissRoll n r gap th w u z_draws) = some cs →
      (∀ c ∈ cs, ∃ v, c = some v ∧ 0 ≤ v ∧ v ≤ 1) ∧
      some (0 : ℝ) ∈ cs ∧ some (1 : ℝ) ∈ cs := by
  have hn0 : n ≠ 0 := by omega
  rw [makeSwissRoll_eq n hn0 r gap th w u z_draws]
  obtain ⟨i, j, hi, hj, hij⟩ := hne
  have hti : tFun r u i ∈ tList n r u := List.mem_map_of_mem _ (List.mem_range.mpr hi)
  have htj : tFun r u j ∈ tList n r u := List.mem_map_of_mem _ (List.mem_range.mpr hj)
  have htne : tList n r u ≠ [] := by
    intro hnil
    rw [hnil] at hti
    cases hti
  have hmin_le : ∀ x ∈ tList n r u, listMin (tList n r u) ≤ x :=
    fun x hx => listMin_le_mem hx
  have hle_max : ∀ x ∈ tList n r u, x ≤ listMax (tList n r u) :=
    fun x hx => listMax_mem_le hx
  have hlt : listMin (tList n r u) < listMax (tList n r u) := by
    rcases lt_or_le (listMin (tList n r u)) (listMax (tList n r u)) with h | h
    · exact h
    · exfalso
      apply hij
      have h1 : tFun r u i ≤ tFun r u j :=
        le_trans (hle_max _ hti) (le_trans h (hmin_le _ htj))
      have h2' : tFun r u j ≤ tFun r u i :=
        le_trans (hle_max _ htj) (le_trans h (hmin_le _ hti))
      exact le_antisymm h1 h2'
  have hd0 : listMax (tList n r u) - listMin (tList n r u) ≠ 0 :=
    sub_ne_zero.mpr (ne_of_gt hlt)
  have hdpos : (0 : ℝ) < listMax (tList n r u) - listMin (tList n r u) := sub_pos.mpr hlt
  refine ⟨rfl, ?_, ?_, ?_⟩
  · simp [resPoints, swissPts]
  · simp [resLabels, tList]
  · intro cs hcs
    simp only [resLabels] at hcs
    rw [← Option.some.inj hcs]
    refine ⟨?_, ?_, ?_⟩
    · intro c hc
      rcases List.mem_map.mp hc with ⟨ti, hti', hfc⟩
      refine ⟨(ti - listMin (tList n r u)) / (listMax (tList n r u) - listMin (tList n r u)),
        ?_, ?_, ?_⟩
      · rw [← hfc]
        simp [pyDiv, hd0]
      · exact div_nonneg (sub_nonneg.mpr (hmin_le ti hti')) hdpos.le
      · rw [div_le_one hdpos]
        exact sub_le_sub_right (hle_max ti hti') _
    · refine List.mem_map.mpr ⟨listMin (tList n r u), listMin_mem htne, ?_⟩
      simp [pyDiv, hd0]
    · refine List.mem_map.mpr ⟨listMax (tList n r u), listMax_mem htne, ?_⟩
      simp [pyDiv, hd0, div_self hd0]

theorem make_swiss_roll_color_normalized_witness :
    (2 ≤ 2 ∧ tFun 1 (fun i => (i : ℝ)) 0 ≠ tFun 1 (fun i => (i : ℝ)) 1) ∧
    (resOk (makeSwissRoll 2 1 0 0 10 (fun i => (i : ℝ)) (fun _ => 0)) = true ∧
     (resPoints (makeSwissRoll 2 1 0 0 10 (fun i => (i : ℝ)) (fun _ => 0))).map List.length =
       some 2 ∧
     (resLabels (makeSwissRoll 2 1 0 0 10 (fun i => (i : ℝ)) (fun _ => 0))).map List.length =
       some 2 ∧
     ∀ cs, resLabels (makeSwissRoll 2 1 0 0 10 (fun i => (i : ℝ)) (fun _ => 0)) = some cs →
       (∀ c ∈ cs, ∃ v, c = some v ∧ 0 ≤ v ∧ v ≤ 1) ∧
       some (0 : ℝ) ∈ cs ∧ some (1 : ℝ) ∈ cs) := by
  have hne : tFun 1 (fun i => (i : ℝ)) 0 ≠ tFun 1 (fun i => (i : ℝ)) 1 := by
    unfold tFun
    push_cast
    intro h
    nlinarith [Real.pi_pos]
  exact ⟨⟨le_refl 2, hne⟩,
    make_swiss_roll_color_normalized 2 1 0 0 10 (fun i => (i : ℝ)) (fun _ => 0) (le_refl 2)
      ⟨0, 1, by norm_num, by norm_num, hne⟩⟩

/-- C6 counterexample: a run of `make_swiss_roll(n_samples=2)` (default
shape parameters) on which the uniform sampler returned the same draw
twice has `t.max() - t.min() = 0`, so both colors are the NaN `0/0` —
not values in `[0, 1]` with minimum `0` — refuting the claim as stated for
an `n_samples ≥ 2` input. -/
theorem make_swiss_roll_const_draws_not_normalized :
    resLabels (makeSwissRoll 2 (3 / 2) 0 0 10 (fun _ => 0) (fun _ => 0)) =
      some [none, none] ∧
    some (0 : ℝ) ∉ (resLabels (makeSwissRoll 2 (3 / 2) 0 0 10 (fun _ => 0) (fun _ => 0))).getD [] := by
  have hcol : resLabels (makeSwissRoll 2 (3 / 2) 0 0 10 (fun _ => (0 : ℝ)) (fun _ => (0 : ℝ))) =
      some [none, none] := by
    rw [makeSwissRoll_eq 2 (by norm_num) (3 / 2) 0 0 10 (fun _ => 0) (fun _ => 0)]
    simp only [resLabels]
    have ht : tList 2 (3 / 2) (fun _ => (0 : ℝ)) = [3 / 2 * Real.pi, 3 / 2 * Real.pi] := by
      simp [tList, List.range_succ, List.range_zero, tFun]
    rw [ht]
    simp [listMin, listMax, pyDiv]
  exact ⟨hcol, by rw [hcol]; simp⟩
